import Mathlib

/-!
Verification development for the `christoff` terminal metronome.

The C++ sources are shallowly embedded: machine integers become `Nat`/`Int`
with an explicit `% 2^64` where the C++ computation wraps, C++ `float`
values become `ℚ` (every operation performed on them in the program —
adding or subtracting 1, clamping, comparing, dividing 60000 by them and
truncating to an unsigned integer — is exact on the values exercised
here), and the wall clock of `std::chrono::steady_clock` becomes an
explicit `now : Nat` parameter measured in milliseconds.  Stateful member
functions become functions from the old object value to the new one.
-/

set_option maxRecDepth 8192

namespace Christoff

/-! ## Types.hpp -/

/-- `BoxSize` from Types.hpp: a data structure for an arbitrary box. -/
structure BoxSize (NumberType : Type) where
  X : NumberType
  Y : NumberType
deriving DecidableEq, Repr

/-- `operator!=` on `BoxSize` from Types.hpp: `(A.X != B.X) && (A.Y != B.Y)`. -/
def boxNeq (A B : BoxSize Int) : Bool :=
  (A.X != B.X) && (A.Y != B.Y)

/-- `operator==` on `BoxSize` from Types.hpp: `(A.X == B.X) && (A.Y == B.Y)`. -/
def boxEq (A B : BoxSize Int) : Bool :=
  (A.X == B.X) && (A.Y == B.Y)

/-- `Position` is `BoxSize` under another name; the drawing primitives use
`Position<float>`, embedded with `ℚ` coordinates. -/
def Position : Type := BoxSize ℚ

/-- `ColorType<unsigned char>` from Types.hpp. -/
structure ColorType where
  R : Nat
  G : Nat
  B : Nat
  A : Nat
deriving DecidableEq, Repr

/-! ## Formulas.hpp -/

/-- `ComputeMillisecondsPerBeat` from Formulas.hpp: `1000.0 * 60.0 / BPM`. -/
def ComputeMillisecondsPerBeat (BPM : ℚ) : ℚ :=
  1000 * 60 / BPM

/-! ## Interface.hpp: constants and the UI state -/

/-- `FlashInterval` from Interface.hpp: milliseconds to flash up on screen. -/
def FlashInterval : Nat := 64

/-- `UserInterface::MaxVisualizations`. -/
def MaxVisualizations : Nat := 10

/-- `UserInterface::MaxColors`. -/
def MaxColors : Int := 7

/-- The mutable fields of `UserInterface` from Interface.hpp.
`Labels` is the cached label array (`std::array<std::string,5>`),
`VisualizationType` models the `unsigned char` field (invariant: `< 256`). -/
structure UserInterface where
  Labels : Fin 5 → String
  CurrentSelection : Int
  BPM : ℚ
  Color : Int
  Signature_Upper : Int
  Signature_Lower : Int
  VisualizationType : Nat
  Flashing : Bool

/-- The default-constructed `UserInterface`: empty label strings,
selection 0, BPM 120, color 0, signature 4/4, visualization 0, no flashing. -/
def initUI : UserInterface :=
  { Labels := fun _ => ""
    CurrentSelection := 0
    BPM := 120
    Color := 0
    Signature_Upper := 4
    Signature_Lower := 4
    VisualizationType := 0
    Flashing := false }

/-- `UserInterface::MoveSelection` from Interface.hpp. -/
def UserInterface.MoveSelection (ui : UserInterface) (direction : Int) : UserInterface :=
  if direction > 0 then
    if ui.CurrentSelection < 4 then { ui with CurrentSelection := ui.CurrentSelection + 1 }
    else { ui with CurrentSelection := 0 }
  else if direction < 0 then
    if ui.CurrentSelection > 0 then { ui with CurrentSelection := ui.CurrentSelection - 1 }
    else { ui with CurrentSelection := 4 }
  else ui

/-- `UserInterface::SetBPM` from Interface.hpp:
`BPM = std::max(0.01f, std::min(newBPM, 350.0f))`.  (The `float` literal
`0.01f` is not exactly 1/100, but it is strictly positive, which is the
only property of it this development uses.) -/
def UserInterface.SetBPM (ui : UserInterface) (newBPM : ℚ) : UserInterface :=
  { ui with BPM := max (1/100) (min newBPM 350) }

/-- `UserInterface::SetColor` from Interface.hpp. -/
def UserInterface.SetColor (ui : UserInterface) (direction : Int) : UserInterface :=
  if direction > 0 then
    if ui.Color < MaxColors then { ui with Color := ui.Color + 1 }
    else { ui with Color := 0 }
  else if direction < 0 then
    if ui.Color > 0 then { ui with Color := ui.Color - 1 }
    else { ui with Color := MaxColors }
  else ui

/-- `UserInterface::SetSignature` from Interface.hpp. -/
def UserInterface.SetSignature (ui : UserInterface) (upper lower : Int) : UserInterface :=
  { ui with Signature_Upper := upper, Signature_Lower := lower }

/-- `UserInterface::SetVisualization` from Interface.hpp.  The field is an
`unsigned char`; both guarded branches stay inside `[0, 255]` so `Nat`
subtraction is exact. -/
def UserInterface.SetVisualization (ui : UserInterface) (direction : Int) : UserInterface :=
  if direction > 0 then
    if ui.VisualizationType < MaxVisualizations then
      { ui with VisualizationType := ui.VisualizationType + 1 }
    else { ui with VisualizationType := 0 }
  else if direction < 0 then
    if ui.VisualizationType > 0 then
      { ui with VisualizationType := ui.VisualizationType - 1 }
    else { ui with VisualizationType := MaxVisualizations }
  else ui

/-- `UserInterface::ToggleFlashing` from Interface.hpp. -/
def UserInterface.ToggleFlashing (ui : UserInterface) : UserInterface :=
  { ui with Flashing := !ui.Flashing }

/-- Models the C++ stream insertion `Str << std::setprecision(5) << BPM`
for the `float` BPM value.  On integral values (the only ones whose exact
rendering any theorem here inspects) it agrees with the C++ output; on
non-integral values it is some fixed injective rendering of the rational. -/
def showFloatPrec5 (q : ℚ) : String :=
  if q.den = 1 then toString q.num
  else toString q.num ++ "/" ++ toString q.den

/-- `UserInterface::GetLabel` from Interface.hpp.  The C++ member builds the
string from the current field values, stores it in `Labels[index]` and
returns it; the embedding returns the string together with the updated
object. -/
def UserInterface.GetLabel (ui : UserInterface) (index : Fin 5) : String × UserInterface :=
  let s : String :=
    if index.val = 0 then
      "Time signature: " ++ toString ui.Signature_Upper ++ " : " ++ toString ui.Signature_Lower
    else if index.val = 1 then
      "Beats Per Minute: " ++ showFloatPrec5 ui.BPM
    else if index.val = 2 then
      "Color scheme: " ++ toString ui.Color
    else if index.val = 3 then
      "Visualization: " ++ toString ui.VisualizationType
    else if index.val = 4 then
      "Flashing: " ++ (if !ui.Flashing then "No" else "Yes")
    else ""
  (s, { ui with Labels := Function.update ui.Labels index s })

/-! ## Interface.hpp: the fingerprint (`UserInterface::hash`)

`std::size_t` arithmetic wraps modulo `2^64`.  `std::hash<T>` for the
integral types `int`, `short`, `unsigned char` and `bool` is the identity
conversion to `size_t` (libstdc++), embedded below as reduction modulo
`2^64` of the two's-complement value.  `std::hash<float>` is external
library code with an implementation-defined value; it is modelled as an
abstract parameter `hf : ℚ → Nat` whose result is used modulo `2^64`,
exactly as the `size_t` it returns. -/

/-- The `size_t` modulus. -/
def hashMod : Nat := 2 ^ 64

/-- One accumulation step of `UserInterface::hash`:
`hash = ((hash << 5) + hash) + I` on `size_t`, i.e. `(acc * 33 + I)` with
every intermediate operation taken modulo `2^64` (the intermediate
reductions collapse into one). -/
def hashCombine (acc I : Nat) : Nat :=
  (acc * 33 + I) % hashMod

/-- `std::hash<int>` / `std::hash<short>` (libstdc++): the identity
conversion of the two's-complement value to `size_t`. -/
def hashInt (x : Int) : Nat :=
  (x % (2 ^ 64 : Int)).toNat

/-- `std::hash<bool>` (libstdc++): `false ↦ 0`, `true ↦ 1`. -/
def hashBool (b : Bool) : Nat :=
  if b then 1 else 0

/-- `UserInterface::hash` from Interface.hpp: the djb2-style fold of the
seven field hashes, starting from the seed `99194853094755497`.
`hf` models `std::hash<float>`. -/
def UserInterface.hash (hf : ℚ → Nat) (ui : UserInterface) : Nat :=
  let h0 : Nat := 99194853094755497
  let h1 := hashCombine h0 (hashInt ui.CurrentSelection)
  let h2 := hashCombine h1 (hf ui.BPM % hashMod)
  let h3 := hashCombine h2 (hashInt ui.Color)
  let h4 := hashCombine h3 (hashInt ui.Signature_Upper)
  let h5 := hashCombine h4 (hashInt ui.Signature_Lower)
  let h6 := hashCombine h5 (ui.VisualizationType % hashMod)
  hashCombine h6 (hashBool ui.Flashing)

/-! ## DrawSystemNcurses.hpp: the unimplemented geometry primitives -/

/-- `Unused(...)` from Types.hpp: consumes its arguments and does nothing. -/
def Unused {A : Type} (_ : A) : Unit := ()

/-- `ncurses_WindowHandle::DrawCircle`: `throw std::runtime_error("Not Implemented")`. -/
def DrawCircle (Radius : ℚ) (Loc : Position) (Border : ColorType)
    (BorderThickness : ℚ) (Fill : Bool) (FillColor : ColorType) : Except String Unit :=
  Unused (Radius, Loc, Border, BorderThickness, Fill, FillColor)
  |> fun _ => Except.error ("Not Implemented")

/-- `ncurses_WindowHandle::DrawTriangle`: `throw std::runtime_error("Not Implemented")`. -/
def DrawTriangle (Pt1 Pt2 Pt3 : Position) (Border : ColorType)
    (BorderThickness : ℚ) (Offset : Position) (Fill : Bool)
    (FillColor : ColorType) : Except String Unit :=
  Unused (Pt1, Pt2, Pt3, Border, BorderThickness, Offset, Fill, FillColor)
  |> fun _ => Except.error ("Not Implemented")

/-- `ncurses_WindowHandle::DrawLine`: `throw std::runtime_error("Not Implemented")`. -/
def DrawLine (Pt1 Pt2 : Position) (Thickness : ℚ) (Offset : Position) : Except String Unit :=
  Unused (Pt1, Pt2, Thickness, Offset)
  |> fun _ => Except.error ("Not Implemented")

/-! ## DrawSystemNcurses.hpp: the flash timing state machine -/

/-- The timing state owned by `NCursesVisual` (the `VisualOutput` fields
plus `NCursesVisual`'s own `UI_Hash` and `FlashState`).  Timestamps are
milliseconds on the steady clock. -/
structure VisualState where
  UI_Hash : Nat
  FlashState : Bool
  FirstTick : Nat
  LastTick : Nat
  TickTimer : Nat
  FlashCounter : Nat
deriving DecidableEq, Repr

/-- `NCursesVisual::SetFlashState` restricted to its effect on the timing
state (the window fill it also performs is outside the model). -/
def SetFlashState (State : Bool) (V : VisualState) : VisualState :=
  { V with FlashState := State }

/-- `NCursesVisual::reset`: `FirstTick = now; FlashCounter = 1`. -/
def VisualState.reset (V : VisualState) (now : Nat) : VisualState :=
  { V with FirstTick := now, FlashCounter := 1 }

/-- The `NCursesVisual` constructor state at clock time `now`:
`FirstTick = LastTick = TickTimer = now`, `FlashCounter = 0` (the
`VisualOutput` member initializer), `UI_Hash = 0`, flash off. -/
def initVisual (now : Nat) : VisualState :=
  { UI_Hash := 0
    FlashState := false
    FirstTick := now
    LastTick := now
    TickTimer := now
    FlashCounter := 0 }

/-- The `long unsigned MillisPerBeat` local of `DrawFlash`: the `float`
result of `ComputeMillisecondsPerBeat` converted to `unsigned long`
(truncation toward zero; on the strictly positive values that arise this
is the floor). -/
def millisPerBeatLU (BPM : ℚ) : Nat :=
  (⌊ComputeMillisecondsPerBeat BPM⌋).toNat

/-- The `long unsigned local_FlashInterval` of `DrawFlash`:
`std::max(std::min(FlashInterval, (long long)MillisPerBeat / 6), (long long)24)`. -/
def localFlashInterval (BPM : ℚ) : Nat :=
  max (min FlashInterval (millisPerBeatLU BPM / 6)) 24

/-- `NCursesVisual::DrawFlash` from DrawSystemNcurses.hpp, with the wall
clock passed explicitly (`now`, in milliseconds; the several
`steady_clock::now()` calls within one invocation are one instant in this
model).  `hf` models `std::hash<float>` inside `UserInterface::hash`.
The product `MillisPerBeat * FlashCounter` is a `size_t` product and wraps
modulo `2^64`. -/
def DrawFlash (hf : ℚ → Nat) (V : VisualState) (UI : UserInterface) (now : Nat) : VisualState :=
  let V1 :=
    if UserInterface.hash hf UI ≠ V.UI_Hash then
      ({ V with UI_Hash := UserInterface.hash hf UI }).reset now
    else if ¬ UI.Flashing then
      V.reset now
    else V
  let Diff : Nat := now - V1.FirstTick
  let DiffTick : Nat := now - V1.TickTimer
  let MillisPerBeat : Nat := millisPerBeatLU UI.BPM
  let lFI : Nat := localFlashInterval UI.BPM
  let V2 := if DiffTick > lFI then SetFlashState false V1 else V1
  if Diff > MillisPerBeat * V2.FlashCounter % hashMod then
    { SetFlashState true V2 with
        LastTick := now
        TickTimer := now
        FlashCounter := V2.FlashCounter + 1 }
  else V2

/-! ## DrawSystemNcurses.hpp: `ncurses_InputPipe` key handlers -/

/-- `ncurses_InputPipe::HandleSelectionKey`: only the Flashing field
responds to the selection key. -/
def HandleSelectionKey (ui : UserInterface) : UserInterface :=
  if ui.CurrentSelection = 4 then ui.ToggleFlashing else ui

/-- `ncurses_InputPipe::HandleArrowKey` from DrawSystemNcurses.hpp.  On the
BPM field: `UI.BPM += (Direction > 0) - (UI.BPM > 1.0f && Direction < 0)`. -/
def HandleArrowKey (ui : UserInterface) (Direction : Int) : UserInterface :=
  if ui.CurrentSelection = 0 then ui
  else if ui.CurrentSelection = 1 then
    { ui with BPM := ui.BPM +
        (((if Direction > 0 then 1 else 0) : ℚ) -
         ((if ui.BPM > 1 ∧ Direction < 0 then 1 else 0) : ℚ)) }
  else if ui.CurrentSelection = 2 then
    ui.SetColor ((if Direction > 0 then 1 else 0) - (if Direction < 0 then 1 else 0))
  else if ui.CurrentSelection = 3 then
    ui.SetVisualization Direction
  else if ui.CurrentSelection = 4 then
    ui.ToggleFlashing
  else ui

/-! ## Reachable UI states

Every mutation of the `UserInterface` object performed anywhere in the
program (Interface.hpp member functions, the `ncurses_InputPipe` handlers,
and the label rewrite inside `GetLabel`). -/

/-- One state-mutation step on the `UserInterface`. -/
inductive UIStep : UserInterface → UserInterface → Prop where
  | moveSelection (ui : UserInterface) (d : Int) : UIStep ui (ui.MoveSelection d)
  | setBPM (ui : UserInterface) (v : ℚ) : UIStep ui (ui.SetBPM v)
  | setColor (ui : UserInterface) (d : Int) : UIStep ui (ui.SetColor d)
  | setSignature (ui : UserInterface) (u l : Int) : UIStep ui (ui.SetSignature u l)
  | setVisualization (ui : UserInterface) (d : Int) : UIStep ui (ui.SetVisualization d)
  | toggleFlashing (ui : UserInterface) : UIStep ui ui.ToggleFlashing
  | selectionKey (ui : UserInterface) : UIStep ui (HandleSelectionKey ui)
  | arrowKey (ui : UserInterface) (d : Int) : UIStep ui (HandleArrowKey ui d)
  | getLabel (ui : UserInterface) (i : Fin 5) : UIStep ui (ui.GetLabel i).2

/-- UI states reachable from the default-constructed state. -/
inductive ReachableUI : UserInterface → Prop where
  | init : ReachableUI initUI
  | step {ui ui' : UserInterface} : ReachableUI ui → UIStep ui ui' → ReachableUI ui'

/-! ## Helper lemmas: fingerprint algebra

The accumulation `acc ↦ acc * 33 + I (mod 2^64)` is injective in each
argument separately because 33 is a unit modulo `2^64`; the lemmas below
carry this out in `ZMod hashMod`. -/

instance : NeZero hashMod := ⟨by decide⟩

lemma hashInt_lt (x : Int) : hashInt x < hashMod := by
  unfold hashInt hashMod
  have h1 : 0 ≤ x % (2 ^ 64 : Int) := Int.emod_nonneg x (by norm_num)
  have h2 : x % (2 ^ 64 : Int) < 2 ^ 64 := Int.emod_lt_of_pos x (by norm_num)
  omega

lemma hashInt_inj {x y : Int} (hx1 : -(2 ^ 63) ≤ x) (hx2 : x < 2 ^ 63)
    (hy1 : -(2 ^ 63) ≤ y) (hy2 : y < 2 ^ 63) (h : hashInt x = hashInt y) : x = y := by
  unfold hashInt at h
  omega

lemma hashBool_lt (b : Bool) : hashBool b < hashMod := by
  cases b <;> decide

lemma cast_hashCombine (a I : Nat) :
    ((hashCombine a I : Nat) : ZMod hashMod) = 33 * (a : ZMod hashMod) + (I : ZMod hashMod) := by
  unfold hashCombine
  rw [ZMod.natCast_mod]
  push_cast
  ring

lemma coprime33 : Nat.Coprime 33 hashMod := by decide

lemma isUnit33 : IsUnit (33 : ZMod hashMod) := by
  have h : ((33 : ℕ) : ZMod hashMod) = (33 : ZMod hashMod) := by norm_cast
  rw [← h, ZMod.isUnit_iff_coprime]
  exact coprime33

lemma combine_cancel {a b : ZMod hashMod} (c : ZMod hashMod)
    (h : 33 * a + c = 33 * b + c) : a = b :=
  isUnit33.mul_right_inj.mp (add_right_cancel h)

lemma cast_inj_of_lt {a b : Nat} (ha : a < hashMod) (hb : b < hashMod)
    (h : ((a : Nat) : ZMod hashMod) = b) : a = b := by
  have h2 := congrArg ZMod.val h
  rwa [ZMod.val_natCast_of_lt ha, ZMod.val_natCast_of_lt hb] at h2

/-! ## Helper lemmas: which operations touch the BPM field -/

lemma MoveSelection_BPM (ui : UserInterface) (d : Int) : (ui.MoveSelection d).BPM = ui.BPM := by
  unfold UserInterface.MoveSelection
  split_ifs <;> rfl

lemma SetColor_BPM (ui : UserInterface) (d : Int) : (ui.SetColor d).BPM = ui.BPM := by
  unfold UserInterface.SetColor
  split_ifs <;> rfl

lemma SetSignature_BPM (ui : UserInterface) (u l : Int) : (ui.SetSignature u l).BPM = ui.BPM := rfl

lemma SetVisualization_BPM (ui : UserInterface) (d : Int) :
    (ui.SetVisualization d).BPM = ui.BPM := by
  unfold UserInterface.SetVisualization
  split_ifs <;> rfl

lemma ToggleFlashing_BPM (ui : UserInterface) : ui.ToggleFlashing.BPM = ui.BPM := rfl

lemma HandleSelectionKey_BPM (ui : UserInterface) : (HandleSelectionKey ui).BPM = ui.BPM := by
  unfold HandleSelectionKey
  split_ifs <;> rfl

lemma GetLabel_BPM (ui : UserInterface) (i : Fin 5) : (ui.GetLabel i).2.BPM = ui.BPM := rfl

lemma SetBPM_pos (ui : UserInterface) (v : ℚ) : 0 < (ui.SetBPM v).BPM := by
  unfold UserInterface.SetBPM
  have h : (0 : ℚ) < 1/100 := by norm_num
  exact lt_max_of_lt_left h

lemma HandleArrowKey_BPM_pos (ui : UserInterface) (d : Int) (h : 0 < ui.BPM) :
    0 < (HandleArrowKey ui d).BPM := by
  unfold HandleArrowKey
  by_cases hs0 : ui.CurrentSelection = 0
  · rw [if_pos hs0]; exact h
  rw [if_neg hs0]
  by_cases hs1 : ui.CurrentSelection = 1
  · rw [if_pos hs1]
    show (0:ℚ) < ui.BPM + _
    by_cases hg : ui.BPM > 1 ∧ d < 0
    · rw [if_pos hg]
      split_ifs <;> linarith [hg.1]
    · rw [if_neg hg]
      split_ifs <;> linarith
  rw [if_neg hs1]
  by_cases hs2 : ui.CurrentSelection = 2
  · rw [if_pos hs2, SetColor_BPM]; exact h
  rw [if_neg hs2]
  by_cases hs3 : ui.CurrentSelection = 3
  · rw [if_pos hs3, SetVisualization_BPM]; exact h
  rw [if_neg hs3]
  by_cases hs4 : ui.CurrentSelection = 4
  · rw [if_pos hs4, ToggleFlashing_BPM]; exact h
  rw [if_neg hs4]; exact h

lemma HandleArrowKey_CurrentSelection (ui : UserInterface) (d : Int) :
    (HandleArrowKey ui d).CurrentSelection = ui.CurrentSelection := by
  unfold HandleArrowKey UserInterface.SetColor UserInterface.SetVisualization
    UserInterface.ToggleFlashing
  split_ifs <;> rfl

/-- Repeated application of the left-arrow handler (`HandleArrowKey` with
direction `-1`), as in the spec scenario of repeated decrements. -/
def iterLeftArrow : Nat → UserInterface → UserInterface
  | 0, ui => ui
  | n + 1, ui => iterLeftArrow n (HandleArrowKey ui (-1))

lemma iterLeftArrow_half (n : Nat) :
    ∀ ui : UserInterface, ui.CurrentSelection = 1 → ui.BPM = 1/2 →
      (iterLeftArrow n ui).BPM = 1/2 := by
  induction n with
  | zero => intro ui _ hb; exact hb
  | succ n ih =>
    intro ui hs hb
    apply ih
    · rw [HandleArrowKey_CurrentSelection]; exact hs
    · unfold HandleArrowKey
      rw [if_neg (by rw [hs]; norm_num), if_pos hs]
      show ui.BPM + _ = 1/2
      rw [hb]
      norm_num

/-! ## Helper definitions and lemmas: concrete scenario states -/

/-- A concrete instantiation of the `std::hash<float>` model, used to
evaluate closed scenarios (while the UI is not mutated, the machine only
ever compares the fingerprint with itself, so any instantiation serves). -/
def hfZero : ℚ → Nat := fun _ => 0

/-- The spec scenario UI: default state with flashing enabled (BPM 120). -/
def uiFlash120 : UserInterface := { initUI with Flashing := true }

/-- A UI sitting on the BPM field with BPM = 1.5. -/
def uiBPM15 : UserInterface := { initUI with CurrentSelection := 1, BPM := 3/2 }

/-- The fingerprint of `uiFlash120` under `hfZero`. -/
def H120 : Nat := UserInterface.hash hfZero uiFlash120

lemma mpb120 : millisPerBeatLU uiFlash120.BPM = 500 := by
  show millisPerBeatLU 120 = 500
  unfold millisPerBeatLU ComputeMillisecondsPerBeat
  norm_num
  decide

lemma lFI120 : localFlashInterval uiFlash120.BPM = 64 := by
  unfold localFlashInterval FlashInterval
  rw [mpb120]
  decide

lemma drawStep0 :
    DrawFlash hfZero (initVisual 0) uiFlash120 0 =
      ⟨H120, false, 0, 0, 0, 1⟩ := by
  simp only [DrawFlash, initVisual, lFI120, mpb120, H120]
  norm_num [uiFlash120, initUI, VisualState.reset, SetFlashState, UserInterface.hash,
    hashCombine, hashInt, hashBool, hfZero, hashMod]
  decide

lemma drawStep500 :
    DrawFlash hfZero ⟨H120, false, 0, 0, 0, 1⟩ uiFlash120 500 =
      ⟨H120, false, 0, 0, 0, 1⟩ := by
  simp only [DrawFlash, lFI120, mpb120, H120]
  norm_num [uiFlash120, initUI, VisualState.reset, SetFlashState, hashMod]

lemma drawStep501 :
    DrawFlash hfZero ⟨H120, false, 0, 0, 0, 1⟩ uiFlash120 501 =
      ⟨H120, true, 0, 501, 501, 2⟩ := by
  simp only [DrawFlash, lFI120, mpb120, H120]
  norm_num [uiFlash120, initUI, VisualState.reset, SetFlashState, hashMod]

lemma drawStep524 :
    DrawFlash hfZero ⟨H120, true, 0, 501, 501, 2⟩ uiFlash120 524 =
      ⟨H120, true, 0, 501, 501, 2⟩ := by
  simp only [DrawFlash, lFI120, mpb120, H120]
  norm_num [uiFlash120, initUI, VisualState.reset, SetFlashState, hashMod]

lemma drawStep566 :
    DrawFlash hfZero ⟨H120, true, 0, 501, 501, 2⟩ uiFlash120 566 =
      ⟨H120, false, 0, 501, 501, 2⟩ := by
  simp only [DrawFlash, lFI120, mpb120, H120]
  norm_num [uiFlash120, initUI, VisualState.reset, SetFlashState, hashMod]

lemma drawStep1001 :
    DrawFlash hfZero ⟨H120, false, 0, 501, 501, 2⟩ uiFlash120 1001 =
      ⟨H120, true, 0, 1001, 1001, 3⟩ := by
  simp only [DrawFlash, lFI120, mpb120, H120]
  norm_num [uiFlash120, initUI, VisualState.reset, SetFlashState, hashMod]

/-! ## Claim C1 -/

/-- C1, counterexample: in the claimed scenario (BPM 120, flashing enabled,
fingerprint unchanged after the initializing invocation at time 0), at
elapsed 500 ms the flash has NOT turned on — the turn-on condition is a
strict inequality (`elapsed > millisPerBeat * counter`), so 500 > 500
fails and the flash state is still off after the invocation at 500 ms. -/
theorem C1_counterexample :
    (DrawFlash hfZero (DrawFlash hfZero (initVisual 0) uiFlash120 0) uiFlash120 500).FlashState
      = false := by
  rw [drawStep0, drawStep500]

/-- C1, amended: with BPM 120 (millisPerBeat = 500 ms) and a 64 ms pulse
width (not 24 ms: `min(FlashInterval = 64, 500/6 = 83)` clamped to at
least 24 gives 64): the flash is off at elapsed 0; it turns on once
elapsed strictly exceeds 500 (at 501); it is still on at 524; it turns
off once the time since the tick strictly exceeds the 64 ms pulse (at
566); it turns on again once elapsed strictly exceeds 1000 (at 1001),
after which the flash counter reads 3. -/
theorem C1_flash_timing_trace_amended :
    millisPerBeatLU uiFlash120.BPM = 500 ∧
    localFlashInterval uiFlash120.BPM = 64 ∧
    (let V1 := DrawFlash hfZero (initVisual 0) uiFlash120 0
     let V2 := DrawFlash hfZero V1 uiFlash120 501
     let V3 := DrawFlash hfZero V2 uiFlash120 524
     let V4 := DrawFlash hfZero V3 uiFlash120 566
     let V5 := DrawFlash hfZero V4 uiFlash120 1001
     V1.FlashState = false ∧ V1.FirstTick = 0 ∧ V1.FlashCounter = 1 ∧
     V2.FlashState = true ∧ V2.FlashCounter = 2 ∧
     V3.FlashState = true ∧
     V4.FlashState = false ∧
     V5.FlashState = true ∧ V5.FlashCounter = 3) := by
  refine ⟨mpb120, lFI120, ?_⟩
  simp only [drawStep0, drawStep501, drawStep524, drawStep566, drawStep1001]
  exact ⟨trivial, trivial, trivial, trivial, trivial, trivial, trivial, trivial, trivial⟩

/-! ## Claim C2 -/

/-- C2, amended: when `flashingEnabled` is false, every invocation resets
the counters (`FlashCounter = 1`, `FirstTick = now`) and the machine never
turns the flash on; but the flash is not forced off immediately — the
state after the invocation is on exactly when it was on before and the
time since `TickTimer` has not yet exceeded the pulse width (`reset()`
clears only the counters, not the flash state). -/
theorem C2_flashing_off_amended :
    ∀ (hf : ℚ → Nat) (V : VisualState) (ui : UserInterface) (now : Nat),
      ui.Flashing = false →
      (DrawFlash hf V ui now).FlashCounter = 1 ∧
      (DrawFlash hf V ui now).FirstTick = now ∧
      ((DrawFlash hf V ui now).FlashState = true ↔
        (V.FlashState = true ∧ now - V.TickTimer ≤ localFlashInterval ui.BPM)) := by
  intro hf V ui now hFl
  unfold DrawFlash
  by_cases hh : UserInterface.hash hf ui ≠ V.UI_Hash
  · simp only [if_pos hh, VisualState.reset, SetFlashState, Nat.sub_self, Nat.not_lt_zero,
      if_false]
    by_cases hdt : now - V.TickTimer > localFlashInterval ui.BPM
    · simp only [if_pos hdt]
      refine ⟨trivial, trivial, ?_⟩
      simp only [Bool.false_eq_true, false_iff, not_and]
      intro _
      omega
    · simp only [if_neg hdt]
      refine ⟨trivial, trivial, ?_⟩
      constructor
      · intro hs
        exact ⟨hs, by omega⟩
      · intro hs
        exact hs.1
  · simp only [if_neg hh, hFl]
    simp only [Bool.false_eq_true, not_false_iff, if_true, VisualState.reset, SetFlashState,
      Nat.sub_self, Nat.not_lt_zero, if_false]
    by_cases hdt : now - V.TickTimer > localFlashInterval ui.BPM
    · simp only [if_pos hdt]
      refine ⟨trivial, trivial, ?_⟩
      simp only [Bool.false_eq_true, false_iff, not_and]
      intro _
      omega
    · simp only [if_neg hdt]
      refine ⟨trivial, trivial, ?_⟩
      constructor
      · intro hs
        exact ⟨hs, by omega⟩
      · intro hs
        exact hs.1

/-- Witness for the C2 amended theorem at a concrete input. -/
theorem C2_flashing_off_amended_witness :
    (DrawFlash hfZero (initVisual 5) initUI 9).FlashCounter = 1 ∧
    (DrawFlash hfZero (initVisual 5) initUI 9).FirstTick = 9 ∧
    ((DrawFlash hfZero (initVisual 5) initUI 9).FlashState = true ↔
      ((initVisual 5).FlashState = true ∧
        9 - (initVisual 5).TickTimer ≤ localFlashInterval initUI.BPM)) :=
  C2_flashing_off_amended hfZero (initVisual 5) initUI 9 rfl

/-- A timing state in the middle of an active pulse: the flash is on and
`TickTimer` reads the current instant. -/
def vPulse : VisualState :=
  { UI_Hash := UserInterface.hash hfZero initUI
    FlashState := true
    FirstTick := 0
    LastTick := 0
    TickTimer := 100
    FlashCounter := 2 }

/-- C2, counterexample: with flashing disabled (`initUI.Flashing = false`)
and an active pulse that has just begun (`TickTimer = now = 100`), the
invocation leaves the flash ON — the machine does not report flash-off on
every invocation. -/
theorem C2_counterexample :
    initUI.Flashing = false ∧ vPulse.FlashState = true ∧
    (DrawFlash hfZero vPulse initUI 100).FlashState = true := by
  refine ⟨rfl, rfl, ?_⟩
  decide

/-! ## Claim C3 -/

/-- The pulse-width formula in the words of the specification:
`clamp(globalFlashIntervalConstant, lower = 24, upper = millisPerBeat/6)`,
written `max(24, min(globalInterval, millisPerBeat/6))`. -/
def specFlashPulseWidth (BPM : ℚ) : Nat :=
  max 24 (min FlashInterval (millisPerBeatLU BPM / 6))

/-- C3: for every BPM the pulse width computed by the machine equals the
specification formula `max(24, min(globalInterval, millisPerBeat/6))`;
for BPM = 350 (millisPerBeat = 171) it is 28, and for BPM = 30
(millisPerBeat = 2000) it is `min(globalInterval, 333)` clamped to at
least 24, i.e. 64. -/
theorem C3_flash_pulse_width :
    (∀ BPM : ℚ, localFlashInterval BPM = specFlashPulseWidth BPM) ∧
    millisPerBeatLU 350 = 171 ∧
    localFlashInterval 350 = specFlashPulseWidth 350 ∧
    localFlashInterval 350 = 28 ∧
    millisPerBeatLU 30 = 2000 ∧
    localFlashInterval 30 = max 24 (min FlashInterval 333) ∧
    localFlashInterval 30 = 64 := by
  have h350 : millisPerBeatLU 350 = 171 := by
    unfold millisPerBeatLU ComputeMillisecondsPerBeat
    norm_num
    decide
  have h30 : millisPerBeatLU 30 = 2000 := by
    unfold millisPerBeatLU ComputeMillisecondsPerBeat
    norm_num
    decide
  refine ⟨fun BPM => ?_, h350, ?_, ?_, h30, ?_, ?_⟩
  · unfold localFlashInterval specFlashPulseWidth
    exact max_comm _ _
  · unfold localFlashInterval specFlashPulseWidth
    exact max_comm _ _
  · unfold localFlashInterval
    rw [h350]
    decide
  · unfold localFlashInterval
    rw [h30]
    decide
  · unfold localFlashInterval
    rw [h30]
    decide

/-! ## Claim C4 -/

/-- C4, counterexample: from BPM = 1.5 a single left-arrow decrement
yields BPM = 0.5 < 1.0 — the guard `BPM > 1.0` only blocks the decrement
from values at most 1, it does not stop the decrement at the 1.0 floor. -/
theorem C4_counterexample :
    uiBPM15.BPM = 3/2 ∧
    (HandleArrowKey uiBPM15 (-1)).BPM = 1/2 ∧
    (HandleArrowKey uiBPM15 (-1)).BPM < 1 := by
  refine ⟨rfl, ?_, ?_⟩ <;> norm_num [HandleArrowKey, uiBPM15, initUI]

/-- C4, amended: repeated left-arrow decrements never drive BPM to 0 or
below (the decrement fires only from BPM > 1, so the result stays
positive); starting at BPM = 1.5 the first decrement lands on 0.5 and
every further decrement leaves it at 0.5. -/
theorem C4_left_arrow_floor_amended :
    (∀ ui : UserInterface, 0 < ui.BPM → 0 < (HandleArrowKey ui (-1)).BPM) ∧
    (∀ n : Nat, 1 ≤ n → (iterLeftArrow n uiBPM15).BPM = 1/2) := by
  constructor
  · intro ui h
    exact HandleArrowKey_BPM_pos ui (-1) h
  · intro n hn
    obtain ⟨m, rfl⟩ : ∃ m, n = m + 1 := ⟨n - 1, by omega⟩
    show (iterLeftArrow m (HandleArrowKey uiBPM15 (-1))).BPM = 1/2
    apply iterLeftArrow_half
    · rw [HandleArrowKey_CurrentSelection]; rfl
    · norm_num [HandleArrowKey, uiBPM15, initUI]

/-- Witness for the C4 amended theorem at concrete inputs. -/
theorem C4_left_arrow_floor_amended_witness :
    0 < (HandleArrowKey initUI (-1)).BPM ∧ (iterLeftArrow 3 uiBPM15).BPM = 1/2 :=
  ⟨C4_left_arrow_floor_amended.1 initUI (by norm_num [initUI]),
   C4_left_arrow_floor_amended.2 3 (by norm_num)⟩

/-! ## Claim C5 -/

/-- C5: `SetBPM` yields a strictly positive BPM from any input; the
arrow-key mutation preserves strict positivity; hence every UI state
reachable from the default state has BPM > 0, and the divisor of the
timing computation `millisPerBeat = 60000 / bpm` is strictly positive on
every reachable state (the quotient is positive as well). -/
theorem C5_bpm_positive_invariant :
    (∀ (ui : UserInterface) (v : ℚ), 0 < (ui.SetBPM v).BPM) ∧
    (∀ (ui : UserInterface) (d : Int), 0 < ui.BPM → 0 < (HandleArrowKey ui d).BPM) ∧
    (∀ ui : UserInterface, ReachableUI ui →
      0 < ui.BPM ∧ 0 < ComputeMillisecondsPerBeat ui.BPM) := by
  refine ⟨SetBPM_pos, HandleArrowKey_BPM_pos, ?_⟩
  intro ui hr
  have hb : 0 < ui.BPM := by
    induction hr with
    | init => norm_num [initUI]
    | step hr hstep ih =>
      cases hstep with
      | moveSelection d => rw [MoveSelection_BPM]; exact ih
      | setBPM v => exact SetBPM_pos _ v
      | setColor d => rw [SetColor_BPM]; exact ih
      | setSignature u l => rw [SetSignature_BPM]; exact ih
      | setVisualization d => rw [SetVisualization_BPM]; exact ih
      | toggleFlashing => rw [ToggleFlashing_BPM]; exact ih
      | selectionKey => rw [HandleSelectionKey_BPM]; exact ih
      | arrowKey d => exact HandleArrowKey_BPM_pos _ d ih
      | getLabel i => rw [GetLabel_BPM]; exact ih
  refine ⟨hb, ?_⟩
  unfold ComputeMillisecondsPerBeat
  exact div_pos (by norm_num) hb

/-- Witness for C5 at concrete inputs. -/
theorem C5_bpm_positive_invariant_witness :
    0 < (initUI.SetBPM (-5)).BPM ∧
    0 < (HandleArrowKey initUI 1).BPM ∧
    0 < initUI.BPM ∧
    0 < ComputeMillisecondsPerBeat initUI.BPM :=
  ⟨C5_bpm_positive_invariant.1 initUI (-5),
   C5_bpm_positive_invariant.2.1 initUI 1 (by norm_num [initUI]),
   (C5_bpm_positive_invariant.2.2 initUI ReachableUI.init).1,
   (C5_bpm_positive_invariant.2.2 initUI ReachableUI.init).2⟩

/-! ## Claim C7 -/

/-- C7, counterexample: `GetLabel` mutates the `UserInterface` object — on
the default state, fetching label 1 rewrites `Labels[1]` from the empty
string to the computed label, so the object after the call differs from
the object before it. -/
theorem C7_counterexample :
    (initUI.GetLabel 1).2 ≠ initUI :=
  fun h => absurd (congrArg (fun u => u.Labels 1) h) (by decide)

/-- C7, amended: the string returned by `GetLabel` is a pure function of
the seven state fields (two states agreeing on those fields yield the same
label, whatever their cached `Labels`), and the call's only mutation is
writing that string into `Labels[index]`; the seven fields themselves are
never mutated. -/
theorem C7_getlabel_amended :
    ∀ (ui : UserInterface) (i : Fin 5),
      ((ui.GetLabel i).2
        = { ui with Labels := Function.update ui.Labels i (ui.GetLabel i).1 }) ∧
      (ui.GetLabel i).2.CurrentSelection = ui.CurrentSelection ∧
      (ui.GetLabel i).2.BPM = ui.BPM ∧
      (ui.GetLabel i).2.Color = ui.Color ∧
      (ui.GetLabel i).2.Signature_Upper = ui.Signature_Upper ∧
      (ui.GetLabel i).2.Signature_Lower = ui.Signature_Lower ∧
      (ui.GetLabel i).2.VisualizationType = ui.VisualizationType ∧
      (ui.GetLabel i).2.Flashing = ui.Flashing ∧
      (∀ ui2 : UserInterface,
        ui2.CurrentSelection = ui.CurrentSelection → ui2.BPM = ui.BPM →
        ui2.Color = ui.Color → ui2.Signature_Upper = ui.Signature_Upper →
        ui2.Signature_Lower = ui.Signature_Lower →
        ui2.VisualizationType = ui.VisualizationType → ui2.Flashing = ui.Flashing →
        (ui2.GetLabel i).1 = (ui.GetLabel i).1) := by
  intro ui i
  refine ⟨rfl, rfl, rfl, rfl, rfl, rfl, rfl, rfl, ?_⟩
  intro ui2 h1 h2 h3 h4 h5 h6 h7
  unfold UserInterface.GetLabel
  simp only [h1, h2, h3, h4, h5, h6, h7]

/-- Witness for the C7 amended theorem at concrete inputs. -/
theorem C7_getlabel_amended_witness :
    ((initUI.GetLabel 0).2
       = { initUI with Labels := Function.update initUI.Labels 0 (initUI.GetLabel 0).1 }) ∧
    (initUI.GetLabel 0).1 = (initUI.GetLabel 0).1 :=
  ⟨(C7_getlabel_amended initUI 0).1,
   (C7_getlabel_amended initUI 0).2.2.2.2.2.2.2.2 initUI rfl rfl rfl rfl rfl rfl rfl⟩

/-! ## Claim C8 -/

/-- C8: `SetColor` and `SetVisualization` wrap at their bounds — from the
maximum, a positive direction goes to 0; from 0, a negative direction goes
to the maximum; otherwise the field moves by exactly 1 in the direction
and (for any nonzero direction) stays inside `[0, max]`. -/
theorem C8_color_visualization_wrap :
    ∀ (ui : UserInterface) (d : Int),
      (0 ≤ ui.Color → ui.Color ≤ MaxColors →
        ((0 < d ∧ ui.Color = MaxColors → (ui.SetColor d).Color = 0) ∧
         (0 < d ∧ ui.Color < MaxColors → (ui.SetColor d).Color = ui.Color + 1) ∧
         (d < 0 ∧ ui.Color = 0 → (ui.SetColor d).Color = MaxColors) ∧
         (d < 0 ∧ 0 < ui.Color → (ui.SetColor d).Color = ui.Color - 1) ∧
         (d ≠ 0 → 0 ≤ (ui.SetColor d).Color ∧ (ui.SetColor d).Color ≤ MaxColors))) ∧
      (ui.VisualizationType ≤ MaxVisualizations →
        ((0 < d ∧ ui.VisualizationType = MaxVisualizations →
            (ui.SetVisualization d).VisualizationType = 0) ∧
         (0 < d ∧ ui.VisualizationType < MaxVisualizations →
            (ui.SetVisualization d).VisualizationType = ui.VisualizationType + 1) ∧
         (d < 0 ∧ ui.VisualizationType = 0 →
            (ui.SetVisualization d).VisualizationType = MaxVisualizations) ∧
         (d < 0 ∧ 0 < ui.VisualizationType →
            (ui.SetVisualization d).VisualizationType = ui.VisualizationType - 1) ∧
         (d ≠ 0 → (ui.SetVisualization d).VisualizationType ≤ MaxVisualizations))) := by
  intro ui d
  constructor
  · intro hc0 hcM
    unfold UserInterface.SetColor
    unfold MaxColors at *
    refine ⟨?_, ?_, ?_, ?_, ?_⟩
    · rintro ⟨hd, hm⟩
      rw [if_pos hd, if_neg (by omega)]
    · rintro ⟨hd, hm⟩
      rw [if_pos hd, if_pos (by omega)]
    · rintro ⟨hd, hm⟩
      rw [if_neg (by omega), if_pos hd, if_neg (by omega)]
    · rintro ⟨hd, hm⟩
      rw [if_neg (by omega), if_pos hd, if_pos (by omega)]
    · intro hd
      by_cases h1 : d > 0
      · rw [if_pos h1]
        by_cases h2 : ui.Color < 7
        · rw [if_pos h2]
          show 0 ≤ ui.Color + 1 ∧ ui.Color + 1 ≤ 7
          omega
        · rw [if_neg h2]
          show (0:Int) ≤ 0 ∧ (0:Int) ≤ 7
          omega
      · rw [if_neg h1, if_pos (by omega : d < 0)]
        by_cases h2 : ui.Color > 0
        · rw [if_pos h2]
          show 0 ≤ ui.Color - 1 ∧ ui.Color - 1 ≤ 7
          omega
        · rw [if_neg h2]
          show (0:Int) ≤ 7 ∧ (7:Int) ≤ 7
          omega
  · intro hvM
    unfold UserInterface.SetVisualization
    unfold MaxVisualizations at *
    refine ⟨?_, ?_, ?_, ?_, ?_⟩
    · rintro ⟨hd, hm⟩
      rw [if_pos hd, if_neg (by omega)]
    · rintro ⟨hd, hm⟩
      rw [if_pos hd, if_pos (by omega)]
    · rintro ⟨hd, hm⟩
      rw [if_neg (by omega), if_pos hd, if_neg (by omega)]
    · rintro ⟨hd, hm⟩
      rw [if_neg (by omega), if_pos hd, if_pos (by omega)]
    · intro hd
      by_cases h1 : d > 0
      · rw [if_pos h1]
        by_cases h2 : ui.VisualizationType < 10
        · rw [if_pos h2]
          show ui.VisualizationType + 1 ≤ 10
          omega
        · rw [if_neg h2]
          show (0:Nat) ≤ 10
          omega
      · rw [if_neg h1, if_pos (by omega : d < 0)]
        by_cases h2 : ui.VisualizationType > 0
        · rw [if_pos h2]
          show ui.VisualizationType - 1 ≤ 10
          omega
        · rw [if_neg h2]

/-- Witness for C8 at concrete inputs: from the maxima, a positive
direction wraps both fields to 0. -/
theorem C8_color_visualization_wrap_witness :
    (({ initUI with Color := 7, VisualizationType := 10 } : UserInterface).SetColor 1).Color = 0 ∧
    (({ initUI with Color := 7, VisualizationType := 10 } : UserInterface).SetVisualization 1).VisualizationType = 0 :=
  ⟨((C8_color_visualization_wrap { initUI with Color := 7, VisualizationType := 10 } 1).1
      (by decide) (by decide)).1 ⟨by decide, rfl⟩,
   ((C8_color_visualization_wrap { initUI with Color := 7, VisualizationType := 10 } 1).2
      (by decide)).1 ⟨by decide, rfl⟩⟩

/-! ## Claim C9 -/

/-- C9: every invocation of the terminal backend's geometry primitives
`DrawCircle`, `DrawTriangle` and `DrawLine` signals the "Not Implemented"
failure to the caller (a thrown `std::runtime_error`, embedded as
`Except.error`), for all inputs, rather than silently doing nothing. -/
theorem C9_geometry_not_implemented :
    (∀ (Radius : ℚ) (Loc : Position) (Border : ColorType) (BorderThickness : ℚ)
        (Fill : Bool) (FillColor : ColorType),
        DrawCircle Radius Loc Border BorderThickness Fill FillColor
          = Except.error ("Not Implemented")) ∧
    (∀ (Pt1 Pt2 Pt3 : Position) (Border : ColorType) (BorderThickness : ℚ)
        (Offset : Position) (Fill : Bool) (FillColor : ColorType),
        DrawTriangle Pt1 Pt2 Pt3 Border BorderThickness Offset Fill FillColor
          = Except.error ("Not Implemented")) ∧
    (∀ (Pt1 Pt2 : Position) (Thickness : ℚ) (Offset : Position),
        DrawLine Pt1 Pt2 Thickness Offset = Except.error ("Not Implemented")) :=
  ⟨fun _ _ _ _ _ _ => rfl, fun _ _ _ _ _ _ _ _ => rfl, fun _ _ _ _ => rfl⟩

/-! ## Claim C10 -/

/-- C10: for `BoxSize` values differing in exactly one coordinate, both
`operator==` (which requires both coordinates equal) and `operator!=`
(which requires both coordinates unequal) return false — the inequality
operator is not the logical negation of the equality operator. -/
theorem C10_boxsize_xor_neither :
    ∀ A B : BoxSize Int, Xor' (A.X ≠ B.X) (A.Y ≠ B.Y) →
      boxEq A B = false ∧ boxNeq A B = false := by
  intro A B h
  rcases h with ⟨hx, hy⟩ | ⟨hy, hx⟩
  · have hy2 : A.Y = B.Y := not_not.mp hy
    constructor
    · simp [boxEq, hx]
    · simp [boxNeq, hy2]
  · have hx2 : A.X = B.X := not_not.mp hx
    constructor
    · simp [boxEq, hy]
    · simp [boxNeq, hx2]

/-- Witness for C10 at a concrete pair differing only in `Y`. -/
theorem C10_boxsize_xor_neither_witness :
    boxEq ⟨0, 0⟩ ⟨0, 1⟩ = false ∧ boxNeq ⟨0, 0⟩ ⟨0, 1⟩ = false :=
  C10_boxsize_xor_neither ⟨0, 0⟩ ⟨0, 1⟩ (Or.inr ⟨by decide, by decide⟩)

/-! ## Claim C6 -/

/-- C6: the fingerprint is deterministic and pure — two snapshots agreeing
on all seven hashed fields produce identical fingerprints (whatever their
label caches) — and changing any single field changes the fingerprint:
unconditionally for the six integral fields (within their C++ machine
ranges: `int` for selection and color, `short` for the signature parts,
`unsigned char` for the visualization, `bool` for flashing), and for the
BPM field whenever the modelled `std::hash<float>` values of the two BPM
values differ modulo `2^64` (libstdc++'s float hash is an invertible
word-transform of the 4-byte representation, so distinct floats give
distinct values). -/
theorem C6_fingerprint_deterministic_sensitive :
    (∀ (hf : ℚ → Nat) (ui1 ui2 : UserInterface),
      ui1.CurrentSelection = ui2.CurrentSelection → ui1.BPM = ui2.BPM →
      ui1.Color = ui2.Color → ui1.Signature_Upper = ui2.Signature_Upper →
      ui1.Signature_Lower = ui2.Signature_Lower →
      ui1.VisualizationType = ui2.VisualizationType → ui1.Flashing = ui2.Flashing →
      UserInterface.hash hf ui1 = UserInterface.hash hf ui2) ∧
    (∀ (hf : ℚ → Nat) (ui : UserInterface) (c : Int),
      -(2 ^ 31) ≤ ui.CurrentSelection → ui.CurrentSelection < 2 ^ 31 →
      -(2 ^ 31) ≤ c → c < 2 ^ 31 → c ≠ ui.CurrentSelection →
      UserInterface.hash hf { ui with CurrentSelection := c } ≠ UserInterface.hash hf ui) ∧
    (∀ (hf : ℚ → Nat) (ui : UserInterface) (b : ℚ),
      hf b % hashMod ≠ hf ui.BPM % hashMod →
      UserInterface.hash hf { ui with BPM := b } ≠ UserInterface.hash hf ui) ∧
    (∀ (hf : ℚ → Nat) (ui : UserInterface) (c : Int),
      -(2 ^ 31) ≤ ui.Color → ui.Color < 2 ^ 31 →
      -(2 ^ 31) ≤ c → c < 2 ^ 31 → c ≠ ui.Color →
      UserInterface.hash hf { ui with Color := c } ≠ UserInterface.hash hf ui) ∧
    (∀ (hf : ℚ → Nat) (ui : UserInterface) (s : Int),
      -(2 ^ 15) ≤ ui.Signature_Upper → ui.Signature_Upper < 2 ^ 15 →
      -(2 ^ 15) ≤ s → s < 2 ^ 15 → s ≠ ui.Signature_Upper →
      UserInterface.hash hf { ui with Signature_Upper := s } ≠ UserInterface.hash hf ui) ∧
    (∀ (hf : ℚ → Nat) (ui : UserInterface) (s : Int),
      -(2 ^ 15) ≤ ui.Signature_Lower → ui.Signature_Lower < 2 ^ 15 →
      -(2 ^ 15) ≤ s → s < 2 ^ 15 → s ≠ ui.Signature_Lower →
      UserInterface.hash hf { ui with Signature_Lower := s } ≠ UserInterface.hash hf ui) ∧
    (∀ (hf : ℚ → Nat) (ui : UserInterface) (v : Nat),
      ui.VisualizationType < 256 → v < 256 → v ≠ ui.VisualizationType →
      UserInterface.hash hf { ui with VisualizationType := v } ≠ UserInterface.hash hf ui) ∧
    (∀ (hf : ℚ → Nat) (ui : UserInterface) (b : Bool),
      b ≠ ui.Flashing →
      UserInterface.hash hf { ui with Flashing := b } ≠ UserInterface.hash hf ui) := by
  refine ⟨?_, ?_, ?_, ?_, ?_, ?_, ?_, ?_⟩
  · intro hf ui1 ui2 h1 h2 h3 h4 h5 h6 h7
    simp only [UserInterface.hash, h1, h2, h3, h4, h5, h6, h7]
  · intro hf ui c h1 h2 h3 h4 hc h
    replace h := congrArg (fun n : Nat => (n : ZMod hashMod)) h
    simp only [UserInterface.hash, cast_hashCombine] at h
    replace h := combine_cancel _ h
    replace h := combine_cancel _ h
    replace h := combine_cancel _ h
    replace h := combine_cancel _ h
    replace h := combine_cancel _ h
    replace h := combine_cancel _ h
    replace h := add_left_cancel h
    replace h := cast_inj_of_lt (hashInt_lt _) (hashInt_lt _) h
    exact hc (hashInt_inj (by norm_num at h3 ⊢; omega) (by norm_num at h4 ⊢; omega)
      (by norm_num at h1 ⊢; omega) (by norm_num at h2 ⊢; omega) h)
  · intro hf ui b hb h
    replace h := congrArg (fun n : Nat => (n : ZMod hashMod)) h
    simp only [UserInterface.hash, cast_hashCombine] at h
    replace h := combine_cancel _ h
    replace h := combine_cancel _ h
    replace h := combine_cancel _ h
    replace h := combine_cancel _ h
    replace h := combine_cancel _ h
    replace h := add_left_cancel h
    replace h := cast_inj_of_lt (Nat.mod_lt _ (by decide)) (Nat.mod_lt _ (by decide)) h
    exact hb h
  · intro hf ui c h1 h2 h3 h4 hc h
    replace h := congrArg (fun n : Nat => (n : ZMod hashMod)) h
    simp only [UserInterface.hash, cast_hashCombine] at h
    replace h := combine_cancel _ h
    replace h := combine_cancel _ h
    replace h := combine_cancel _ h
    replace h := combine_cancel _ h
    replace h := add_left_cancel h
    replace h := cast_inj_of_lt (hashInt_lt _) (hashInt_lt _) h
    exact hc (hashInt_inj (by norm_num at h3 ⊢; omega) (by norm_num at h4 ⊢; omega)
      (by norm_num at h1 ⊢; omega) (by norm_num at h2 ⊢; omega) h)
  · intro hf ui s h1 h2 h3 h4 hs h
    replace h := congrArg (fun n : Nat => (n : ZMod hashMod)) h
    simp only [UserInterface.hash, cast_hashCombine] at h
    replace h := combine_cancel _ h
    replace h := combine_cancel _ h
    replace h := combine_cancel _ h
    replace h := add_left_cancel h
    replace h := cast_inj_of_lt (hashInt_lt _) (hashInt_lt _) h
    exact hs (hashInt_inj (by norm_num at h3 ⊢; omega) (by norm_num at h4 ⊢; omega)
      (by norm_num at h1 ⊢; omega) (by norm_num at h2 ⊢; omega) h)
  · intro hf ui s h1 h2 h3 h4 hs h
    replace h := congrArg (fun n : Nat => (n : ZMod hashMod)) h
    simp only [UserInterface.hash, cast_hashCombine] at h
    replace h := combine_cancel _ h
    replace h := combine_cancel _ h
    replace h := add_left_cancel h
    replace h := cast_inj_of_lt (hashInt_lt _) (hashInt_lt _) h
    exact hs (hashInt_inj (by norm_num at h3 ⊢; omega) (by norm_num at h4 ⊢; omega)
      (by norm_num at h1 ⊢; omega) (by norm_num at h2 ⊢; omega) h)
  · intro hf ui v hv1 hv2 hv h
    replace h := congrArg (fun n : Nat => (n : ZMod hashMod)) h
    simp only [UserInterface.hash, cast_hashCombine] at h
    replace h := combine_cancel _ h
    replace h := add_left_cancel h
    replace h := cast_inj_of_lt (Nat.mod_lt _ (by decide)) (Nat.mod_lt _ (by decide)) h
    rw [Nat.mod_eq_of_lt (Nat.lt_trans hv2 (by decide)),
      Nat.mod_eq_of_lt (Nat.lt_trans hv1 (by decide))] at h
    exact hv h
  · intro hf ui b hb h
    replace h := congrArg (fun n : Nat => (n : ZMod hashMod)) h
    simp only [UserInterface.hash, cast_hashCombine] at h
    replace h := add_left_cancel h
    replace h := cast_inj_of_lt (hashBool_lt _) (hashBool_lt _) h
    cases b <;> cases hFl : ui.Flashing <;> simp_all [hashBool]

/-- Witness for C6 at concrete inputs: the fingerprint ignores the label
cache, and toggling the flashing field changes it. -/
theorem C6_fingerprint_deterministic_sensitive_witness :
    UserInterface.hash hfZero initUI
      = UserInterface.hash hfZero { initUI with Labels := fun _ => "x" } ∧
    UserInterface.hash hfZero { initUI with Flashing := true }
      ≠ UserInterface.hash hfZero initUI :=
  ⟨C6_fingerprint_deterministic_sensitive.1 hfZero initUI
      { initUI with Labels := fun _ => "x" } rfl rfl rfl rfl rfl rfl rfl,
   C6_fingerprint_deterministic_sensitive.2.2.2.2.2.2.2 hfZero initUI true (by decide)⟩

end Christoff
